import Mathlib

/-!
Shallow embedding of the sensor-fusion / control core of `src/app.py`
(class `RobotController`), together with the control table shared with
`src/app2.py` (`run_control_logic`).  Numeric values are modelled as `ℚ`,
Python `None` as `Option`, and the per-tick environment (serial packet,
random draws, wall-clock time, hardware presence) as explicit arguments.
-/

namespace IotProject

/-! ## Serial values and numeric coercion (`RobotController._coerce_numeric`) -/

/-- A value held in a decoded serial packet: either a number (from a
structured payload) or a raw string (from the flat fallback form). -/
inductive SerialValue where
  | num (q : ℚ)
  | str (s : String)
deriving DecidableEq

/-- Digits to a natural number, most significant first. -/
def digitsToNat (ds : List Char) : ℕ :=
  ds.foldl (fun a c => a * 10 + (c.toNat - 48)) 0

/-- Match the pattern `-?\d+(?:\.\d+)?` at the head of the character list,
returning the parsed rational on success (greedy digit runs, and the
fractional group requires at least one digit after the dot). -/
def matchDecimalAt (cs : List Char) : Option ℚ :=
  let p : Bool × List Char :=
    match cs with
    | '-' :: rest => (true, rest)
    | _ => (false, cs)
  let intDigits := p.2.takeWhile Char.isDigit
  if intDigits = [] then none
  else
    let rest := p.2.dropWhile Char.isDigit
    let fracDigits : List Char :=
      match rest with
      | '.' :: r2 => r2.takeWhile Char.isDigit
      | _ => []
    let v : ℚ := (digitsToNat intDigits : ℚ) +
      (digitsToNat fracDigits : ℚ) / (10 : ℚ) ^ fracDigits.length
    some (if p.1 then -v else v)

/-- Leftmost match of `-?\d+(?:\.\d+)?` in a string (as `re.search` does):
try each start position from the left. -/
def findFirstDecimal : List Char → Option ℚ
  | [] => none
  | c :: cs =>
    match matchDecimalAt (c :: cs) with
    | some v => some v
    | none => findFirstDecimal cs

/-- `RobotController._coerce_numeric` (src/app.py 309-319): numbers pass
through; strings have the first signed decimal substring extracted. -/
def coerce_numeric : SerialValue → Option ℚ
  | .num q => some q
  | .str s => findFirstDecimal s.data

/-- Python `int()` truncation toward zero, on exact rationals. -/
def pyTrunc (q : ℚ) : ℤ := if 0 ≤ q then ⌊q⌋ else ⌈q⌉

/-! ## Packets and alias extraction (`RobotController._extract_serial_number`) -/

/-- A decoded packet: mapping from normalized key to value (Python dict,
modelled as an association list with unique keys in insertion order). -/
abbrev Packet := List (String × SerialValue)

/-- Dict lookup. -/
def packetGet (p : Packet) (k : String) : Option SerialValue :=
  (p.find? (fun kv => kv.1 = k)).map (fun kv => kv.2)

/-- Dict assignment `d[k] = v`: overwrite in place if the key exists,
otherwise append. -/
def dictInsert {α : Type} (d : List (String × α)) (k : String) (v : α) :
    List (String × α) :=
  if d.any (fun p => p.1 = k) then
    d.map (fun p => if p.1 = k then (k, v) else p)
  else d ++ [(k, v)]

/-- `RobotController._extract_serial_number` (src/app.py 321-327): try each
alias in order; a present key whose coercion fails is skipped. -/
def extract_serial_number (packet : Packet) : List String → Option ℚ
  | [] => none
  | k :: rest =>
    match packetGet packet k with
    | some v =>
      match coerce_numeric v with
      | some n => some n
      | none => extract_serial_number packet rest
    | none => extract_serial_number packet rest

/-- `_extract_serial_number(..., as_int=True)`: the found number passed
through `int()`. -/
def extract_serial_number_int (packet : Packet) (keys : List String) : Option ℤ :=
  (extract_serial_number packet keys).map pyTrunc

/-- Alias lists, in source order (src/app.py 335-337, 347-352, 399-401). -/
def distKeys : List String := ["distance", "distance_cm", "range", "distance (cm)"]

def lightKeys : List String := ["light", "light_val", "lightdetected", "lightval"]

def soilKeys : List String := ["soil", "soil_val", "soilhumidity", "soilval"]

def tempKeys : List String := ["temperature", "temperature_c", "temp"]

/-! ## Faces and motor commands -/

def FACES_awake : String := "0 ___ 0"

def FACES_sleep : String := "- ___ -"

def FACES_tired : String := "? ___ ?"

def FACES_sad : String := "T ___ T"

/-- Motor command issued by the controller (`stop_motors`, `move_forward`,
`rotate` in src/app.py 196-212). -/
inductive MotorCmd where
  | stopped
  | forward (speed : ℚ)
  | rotating (speed : ℚ)
deriving DecidableEq

/-- `RobotController._apply_logic` (src/app.py 427-455); the same table is
`RobotController.run_control_logic` in src/app2.py 137-167. -/
def apply_logic (dist : ℚ) (light : Option ℤ) (soil : Option ℚ) :
    String × MotorCmd :=
  match light, soil with
  | some l, some s =>
    if l = 0 then (FACES_sleep, MotorCmd.stopped)
    else if s < 30 then
      (FACES_tired, if dist > 30 then MotorCmd.forward 0.6 else MotorCmd.rotating 0.8)
    else
      (FACES_awake, if dist > 30 then MotorCmd.forward 1 else MotorCmd.rotating 1)
  | _, _ => (FACES_sad, MotorCmd.stopped)

/-! ## Sensor fusion (`RobotController._read_sensors`, src/app.py 329-407) -/

/-- The controller fields read and written by the fusion tick
(src/app.py 94-116 and 415-419). -/
structure SensorState where
  distance : ℚ
  light_val : Option ℤ
  soil_val : Option ℚ
  temperature_c : ℚ
  last_dht_read : ℚ
  last_dht_temp : Option ℚ
deriving DecidableEq

/-- Per-tick environment: decoded serial packet, hardware presence flags,
onboard sensor readings, random draws and the wall clock.  `dht_read = none`
models a raised exception in `self.dht_sensor.temperature`. -/
structure TickEnv where
  packet : Packet
  use_mock_hardware : Bool
  has_distance_sensor : Bool
  distance_sensor_m : ℚ
  serial_conn : Bool
  rand_dist : ℚ
  light_flip : Bool
  soil_change : ℚ
  dht_present : Bool
  now : ℚ
  dht_read : Option ℚ
  temp_step : ℚ
deriving DecidableEq

/-- Result of one `_read_sensors` call: the four fused values, the updated
DHT throttle fields, and whether a physical DHT read was performed. -/
structure ReadResult where
  dist : ℚ
  light : Option ℤ
  soil : Option ℚ
  temp : ℚ
  last_dht_read : ℚ
  last_dht_temp : Option ℚ
  dht_physical_read : Bool
deriving DecidableEq

/-- `RobotController._read_sensors` (src/app.py 329-407).  Fuses distance,
light, soil and temperature under the source's priority chains; Python
truthiness of floats (`self.distance`, `s_val or 50.0`) is `≠ 0`. -/
def read_sensors (st : SensorState) (env : TickEnv) : ReadResult :=
  let dist0 := extract_serial_number env.packet distKeys
  let dist : ℚ :=
    match dist0 with
    | some d => d
    | none =>
      if !env.use_mock_hardware && env.has_distance_sensor then
        env.distance_sensor_m * 100
      else if st.distance ≠ 0 then st.distance
      else env.rand_dist
  let l0 := extract_serial_number_int env.packet lightKeys
  let s0raw := extract_serial_number env.packet soilKeys
  let s0 : Option ℚ :=
    match s0raw with
    | some s => some (if s ≤ 1 then s * 100 else s)
    | none => none
  let ls : Option ℤ × Option ℚ :=
    if l0 = none ∧ s0 = none ∧ env.packet = [] ∧ env.serial_conn = false then
      let lm := if env.light_flip then
          some (if st.light_val = some 0 then (1 : ℤ) else 0)
        else st.light_val
      let sBase : ℚ :=
        match st.soil_val with
        | some s => if s = 0 then 50 else s
        | none => 50
      (lm, some (max 0 (min 100 (sBase + env.soil_change))))
    else
      (if l0 = none then st.light_val else l0,
       if s0 = none then st.soil_val else s0)
  let dhtStep : Option ℚ × ℚ × Option ℚ × Bool :=
    if env.dht_present then
      if env.now - st.last_dht_read ≥ 2 then
        match env.dht_read with
        | some t => (some t, env.now, some t, true)
        | none => (st.last_dht_temp, st.last_dht_read, st.last_dht_temp, true)
      else (st.last_dht_temp, st.last_dht_read, st.last_dht_temp, false)
    else (none, st.last_dht_read, st.last_dht_temp, false)
  let temp1 : Option ℚ :=
    match dhtStep.1 with
    | some t => some t
    | none => extract_serial_number env.packet tempKeys
  let temp : ℚ :=
    match temp1 with
    | some t => t
    | none => max 18 (min 35 (st.temperature_c + env.temp_step))
  { dist := dist, light := ls.1, soil := ls.2, temp := temp,
    last_dht_read := dhtStep.2.1, last_dht_temp := dhtStep.2.2.1,
    dht_physical_read := dhtStep.2.2.2 }

/-- One iteration of `RobotController._loop` (src/app.py 409-425): read the
sensors and write the fused values into the shared state. -/
def loop_tick (st : SensorState) (env : TickEnv) : SensorState :=
  let r := read_sensors st env
  { distance := r.dist, light_val := r.light, soil_val := r.soil,
    temperature_c := r.temp, last_dht_read := r.last_dht_read,
    last_dht_temp := r.last_dht_temp }

/-- Initial controller state (src/app.py 94-116). -/
def initState : SensorState :=
  { distance := 0, light_val := some 1, soil_val := some 50,
    temperature_c := 24, last_dht_read := 0, last_dht_temp := none }

/-! ## Link manager (`RobotController._reconnect_serial`, src/app.py 216-242) -/

/-- Connection-related controller fields: timestamp of the last reconnect
attempt, whether a serial connection is open, and the consecutive decode
error counter. -/
structure ConnState where
  last_reconnect_attempt : ℚ
  serial_conn : Bool
  serial_error_count : ℕ
deriving DecidableEq

/-- `RobotController._reconnect_serial` (src/app.py 216-242).  `open_result`
is the outcome of `_init_serial_connection` (device discovery and open),
which never raises. -/
def reconnect_serial (st : ConnState) (now : ℚ) (open_result : Bool) :
    ConnState × Bool :=
  if now - st.last_reconnect_attempt < 5 then (st, false)
  else
    let st1 : ConnState :=
      { st with last_reconnect_attempt := now, serial_conn := false }
    if open_result then
      ({ st1 with serial_conn := true, serial_error_count := 0 }, true)
    else (st1, false)

/-! ## Packet decoding (`RobotController._read_serial_packet`,
src/app.py 244-307).  String helpers mirror the Python string methods at the
character level. -/

/-- Python `str.strip()` whitespace class (the ASCII part). -/
def pyIsSpace (c : Char) : Bool :=
  c = ' ' ∨ c = '\t' ∨ c = '\n' ∨ c = '\r' ∨ c = '\x0b' ∨ c = '\x0c'

/-- `str.strip()` on characters. -/
def trimChars (l : List Char) : List Char :=
  ((l.dropWhile pyIsSpace).reverse.dropWhile pyIsSpace).reverse

/-- `str.strip()`. -/
def pyStrip (s : String) : String := ⟨trimChars s.data⟩

/-- `str.lower()`. -/
def pyLower (s : String) : String := ⟨s.data.map Char.toLower⟩

/-- `str.replace(" ", "")`. -/
def removeSpaces (s : String) : String := ⟨s.data.filter (fun c => c ≠ ' ')⟩

/-- `raw.replace("[", "").replace("]", "")`. -/
def removeBrackets (s : String) : String :=
  ⟨s.data.filter (fun c => c ≠ '[' ∧ c ≠ ']')⟩

/-- `str.split(",")` (keeps empty segments; `"".split(",") = [""]`). -/
def splitOnComma : List Char → List (List Char)
  | [] => [[]]
  | c :: cs =>
    let r := splitOnComma cs
    if c = ',' then [] :: r
    else
      match r with
      | h :: t => (c :: h) :: t
      | [] => [[c]]

/-- `part.split(":", 1)` when `":" in part`: the text before the first colon
and everything after it; `none` when the segment has no colon. -/
def splitFirstColon : List Char → Option (List Char × List Char)
  | [] => none
  | c :: cs =>
    if c = ':' then some ([], cs)
    else
      match splitFirstColon cs with
      | some kv => some (c :: kv.1, kv.2)
      | none => none

/-- Key normalization of the flat fallback form (src/app.py 289):
`key.strip().lower().replace(" ", "")`. -/
def normalizeKeyFallback (k : List Char) : String :=
  removeSpaces (pyLower ⟨trimChars k⟩)

/-- The flat `key:value` fallback decoder (src/app.py 281-290): strip
brackets, split on commas, split each segment at its first colon, skip
segments without a colon, normalize the key, trim the value. -/
def decode_fallback (raw : String) : List (String × String) :=
  let cleaned := removeBrackets raw
  (splitOnComma cleaned.data).foldl (fun packet part =>
    match splitFirstColon part with
    | none => packet
    | some kv => dictInsert packet (normalizeKeyFallback kv.1) (pyStrip ⟨kv.2⟩)) []

/-- The fallback decoder as the claim words it: the key of each entry is the
*trimmed and lowercased* raw key (no space removal).  Stated from the spec's
words for comparison with `decode_fallback`. -/
def decode_fallback_claim (raw : String) : List (String × String) :=
  let cleaned := removeBrackets raw
  (splitOnComma cleaned.data).foldl (fun packet part =>
    match splitFirstColon part with
    | none => packet
    | some kv => dictInsert packet (pyLower ⟨trimChars kv.1⟩) (pyStrip ⟨kv.2⟩)) []

/-- The fallback decoder as the amended claim words it: each colon-bearing
segment is mapped to an entry whose key is trimmed, lowercased and stripped
of all spaces, colon-free segments are skipped (`filterMap`), and the
entries populate the packet in order. -/
def decode_fallback_amended (raw : String) : List (String × String) :=
  let cleaned := removeBrackets raw
  ((splitOnComma cleaned.data).filterMap (fun part =>
    (splitFirstColon part).map (fun kv =>
      (normalizeKeyFallback kv.1, pyStrip ⟨kv.2⟩)))).foldl
    (fun packet kv => dictInsert packet kv.1 kv.2) []

/-- `any(c in raw for c in [':', '[', '{'])`. -/
def hasStructuralDelim (raw : String) : Bool :=
  raw.data.any (fun c => c = ':' ∨ c = '[' ∨ c = '{')

/-- Result of `_read_serial_packet`: updated connection fields, the decoded
packet, and whether `_reconnect_serial` was invoked. -/
structure ReadPacketResult where
  st : ConnState
  packet : Packet
  reconnect_called : Bool
deriving DecidableEq

/-- `RobotController._read_serial_packet` (src/app.py 244-307) on the
non-exception path.  `raw` is the decoded and stripped line; `json_dict` is
the outcome of `json.loads(raw)` when it succeeds with a dict (`none` when
parsing fails or yields a non-dict), with the original JSON keys. -/
def read_serial_packet (st : ConnState) (raw : String)
    (json_dict : Option (List (String × SerialValue))) (now : ℚ)
    (open_result : Bool) : ReadPacketResult :=
  if st.serial_conn = false then
    { st := (reconnect_serial st now open_result).1, packet := [],
      reconnect_called := true }
  else if raw = "" then
    { st := st, packet := [], reconnect_called := false }
  else if raw.length < 5 ∨ hasStructuralDelim raw = false then
    let st1 := { st with serial_error_count := st.serial_error_count + 1 }
    if st1.serial_error_count ≥ 3 then
      { st := (reconnect_serial st1 now open_result).1, packet := [],
        reconnect_called := true }
    else
      { st := st1, packet := [], reconnect_called := false }
  else
    let st2 := { st with serial_error_count := 0 }
    match json_dict with
    | some parsed =>
      { st := st2,
        packet := parsed.foldl (fun acc kv =>
          dictInsert acc (pyLower (pyStrip kv.1)) kv.2) [],
        reconnect_called := false }
    | none =>
      let packet := decode_fallback raw
      if packet = [] then
        { st := { st2 with serial_error_count := st2.serial_error_count + 1 },
          packet := [], reconnect_called := false }
      else
        { st := st2,
          packet := packet.map (fun kv => (kv.1, SerialValue.str kv.2)),
          reconnect_called := false }

/-! ## Gesture bridge (`RobotController.update_gesture`, src/app.py 472-491) -/

/-- Gesture-related controller fields. -/
structure GestureState where
  label : Option String
  mode : Option String
  message : String
  detected_at : Option String
deriving DecidableEq

/-- Python `a or b` on an optional string (`None` and `""` are falsy). -/
def pyOrStr (s : Option String) (dflt : String) : String :=
  match s with
  | some v => if v = "" then dflt else v
  | none => dflt

/-- The state update of `RobotController.update_gesture`
(src/app.py 472-491); `now` models `time.strftime("%H:%M:%S")`.  The Python
branch is on the truthiness of `label`, so the empty string takes the
no-gesture branch. -/
def update_gesture (label mode : Option String) (now : String) : GestureState :=
  match label with
  | some l =>
    if l = "" then
      { label := label, mode := mode, message := "No gesture detected",
        detected_at := none }
    else
      { label := label, mode := mode,
        message := "Gesture " ++ l ++ " detected → engaging " ++ pyOrStr mode "standby",
        detected_at := some now }
  | none =>
    { label := label, mode := mode, message := "No gesture detected",
      detected_at := none }

/-- A tick with a present DHT sensor whose read raises (`dht_read = none`),
no serial data and no other hardware, at `t = 100`. -/
def dhtFailEnvA : TickEnv :=
  { packet := [], use_mock_hardware := true, has_distance_sensor := false,
    distance_sensor_m := 0, serial_conn := false, rand_dist := 50,
    light_flip := false, soil_change := 0, dht_present := true, now := 100,
    dht_read := none, temp_step := 0 }

/-- The same failing-DHT tick 1 second later, at `t = 101`. -/
def dhtFailEnvB : TickEnv :=
  { dhtFailEnvA with now := 101 }

end IotProject

namespace IotProject

/-- C1: the control state machine is total and returns exactly the
four-branch table. -/
theorem C1_control_state_machine (dist : ℚ) (light : Option ℤ) (soil : Option ℚ) :
    ((light = none ∨ soil = none) →
      apply_logic dist light soil = (FACES_sad, MotorCmd.stopped)) ∧
    (∀ l s, light = some l → soil = some s →
      (l = 0 → apply_logic dist light soil = (FACES_sleep, MotorCmd.stopped)) ∧
      (l ≠ 0 → s < 30 → apply_logic dist light soil =
        (FACES_tired, if dist > 30 then MotorCmd.forward 0.6 else MotorCmd.rotating 0.8)) ∧
      (l ≠ 0 → ¬ s < 30 → apply_logic dist light soil =
        (FACES_awake, if dist > 30 then MotorCmd.forward 1 else MotorCmd.rotating 1))) := by
  constructor
  · rintro (rfl | rfl)
    · cases soil <;> rfl
    · cases light <;> rfl
  · rintro l s rfl rfl
    refine ⟨fun hl => ?_, fun hl hs => ?_, fun hl hs => ?_⟩
    · subst hl; rfl
    · simp [apply_logic, hl, hs]
    · simp [apply_logic, hl, hs]

/-- Witness for C1 at concrete inputs covering all four branches. -/
theorem C1_control_state_machine_witness :
    apply_logic 50 (some 1) (some 80) = (FACES_awake, MotorCmd.forward 1) ∧
    apply_logic 50 (some 1) (some 10) = (FACES_tired, MotorCmd.forward 0.6) ∧
    apply_logic 10 (some 0) (some 80) = (FACES_sleep, MotorCmd.stopped) ∧
    apply_logic 10 (some 1) none = (FACES_sad, MotorCmd.stopped) := by
  refine ⟨?_, ?_, ?_, ?_⟩
  · have h := ((C1_control_state_machine 50 (some 1) (some 80)).2 1 80 rfl rfl).2.2
      (by decide) (by norm_num)
    simpa using h
  · have h := ((C1_control_state_machine 50 (some 1) (some 10)).2 1 10 rfl rfl).2.1
      (by decide) (by norm_num)
    simpa using h
  · exact ((C1_control_state_machine 10 (some 0) (some 80)).2 0 80 rfl rfl).1 rfl
  · exact (C1_control_state_machine 10 (some 1) none).1 (Or.inr rfl)

/-- C2: the fused distance follows the fixed priority chain — serial
distance-family value (overriding the ultrasonic sensor), else ultrasonic
reading ×100 (when present and not mock), else the previous distance (when
set, i.e. truthy), else the fresh uniform-random value. -/
theorem C2_distance_priority (st : SensorState) (env : TickEnv) :
    (∀ d, extract_serial_number env.packet distKeys = some d →
      (read_sensors st env).dist = d) ∧
    (extract_serial_number env.packet distKeys = none →
      (env.use_mock_hardware = false → env.has_distance_sensor = true →
        (read_sensors st env).dist = env.distance_sensor_m * 100) ∧
      ((env.use_mock_hardware = true ∨ env.has_distance_sensor = false) →
        (st.distance ≠ 0 → (read_sensors st env).dist = st.distance) ∧
        (st.distance = 0 → (read_sensors st env).dist = env.rand_dist))) := by
  constructor
  · intro d hd
    simp [read_sensors, hd]
  · intro hd
    constructor
    · intro hm hs
      simp [read_sensors, hd, hm, hs]
    · intro hms
      constructor
      · intro hnz
        rcases hms with hm | hs
        · simp [read_sensors, hd, hm, hnz]
        · simp [read_sensors, hd, hs, hnz]
      · intro hz
        rcases hms with hm | hs
        · simp [read_sensors, hd, hm, hz]
        · simp [read_sensors, hd, hs, hz]

/-- Witness for C2: serial overrides the ultrasonic sensor; with no serial
value the sensor reading is used. -/
theorem C2_distance_priority_witness :
    (read_sensors initState
      { packet := [("distance", SerialValue.num 42)], use_mock_hardware := false,
        has_distance_sensor := true, distance_sensor_m := 0.77, serial_conn := true,
        rand_dist := 55, light_flip := false, soil_change := 0, dht_present := false,
        now := 0, dht_read := none, temp_step := 0 }).dist = 42 ∧
    (read_sensors initState
      { packet := [], use_mock_hardware := false,
        has_distance_sensor := true, distance_sensor_m := 0.77, serial_conn := true,
        rand_dist := 55, light_flip := false, soil_change := 0, dht_present := false,
        now := 0, dht_read := none, temp_step := 0 }).dist = 0.77 * 100 := by
  constructor
  · exact (C2_distance_priority initState _).1 42 (by rfl)
  · exact ((C2_distance_priority initState _).2 (by rfl)).1 rfl rfl

/-- C3: a serial-supplied soil value `s ∈ [0,1]` is rescaled to `s × 100`;
a value `s > 1` is stored unchanged. -/
theorem C3_soil_rescale (st : SensorState) (env : TickEnv) (s : ℚ)
    (hs : extract_serial_number env.packet soilKeys = some s) :
    (0 ≤ s → s ≤ 1 → (read_sensors st env).soil = some (s * 100)) ∧
    (1 < s → (read_sensors st env).soil = some s) := by
  constructor
  · intro _ h1
    simp [read_sensors, hs, h1]
  · intro h1
    simp [read_sensors, hs, not_le.mpr h1]

/-- Witness for C3 at `s = 2/5` and `s = 55`. -/
theorem C3_soil_rescale_witness :
    (read_sensors initState
      { packet := [("soil", SerialValue.num (2/5))], use_mock_hardware := true,
        has_distance_sensor := false, distance_sensor_m := 0, serial_conn := true,
        rand_dist := 55, light_flip := false, soil_change := 0, dht_present := false,
        now := 0, dht_read := none, temp_step := 0 }).soil = some 40 ∧
    (read_sensors initState
      { packet := [("soil", SerialValue.num 55)], use_mock_hardware := true,
        has_distance_sensor := false, distance_sensor_m := 0, serial_conn := true,
        rand_dist := 55, light_flip := false, soil_change := 0, dht_present := false,
        now := 0, dht_read := none, temp_step := 0 }).soil = some 55 := by
  constructor
  · exact ((C3_soil_rescale initState _ (2/5) (by rfl)).1 (by norm_num) (by norm_num)).trans
      (by norm_num)
  · exact (C3_soil_rescale initState _ 55 (by rfl)).2 (by norm_num)

/-- C5: `reconnect` is rate-limited to one attempt per 5 seconds: within 5
seconds of the previous attempt it is a no-op returning `false` (so two
calls within 5 seconds perform at most one actual attempt); otherwise it
replaces the connection with the open outcome, records the attempt time,
resets the error counter on success, and returns whether a connection was
established. -/
theorem C5_reconnect_rate_limit (st : ConnState) (now t2 : ℚ) (r r2 : Bool) :
    (now - st.last_reconnect_attempt < 5 →
      reconnect_serial st now r = (st, false)) ∧
    (¬ now - st.last_reconnect_attempt < 5 →
      (reconnect_serial st now r).1.serial_conn = r ∧
      (reconnect_serial st now r).1.last_reconnect_attempt = now ∧
      (r = true → (reconnect_serial st now r).1.serial_error_count = 0) ∧
      (reconnect_serial st now r).2 = r) ∧
    (¬ now - st.last_reconnect_attempt < 5 → t2 - now < 5 →
      reconnect_serial (reconnect_serial st now r).1 t2 r2 =
        ((reconnect_serial st now r).1, false)) := by
  refine ⟨fun h => ?_, fun h => ?_, fun h h2 => ?_⟩
  · simp [reconnect_serial, h]
  · cases r <;> simp [reconnect_serial, h]
  · have hlast : (reconnect_serial st now r).1.last_reconnect_attempt = now := by
      cases r <;> simp [reconnect_serial, h]
    obtain ⟨Y, hY⟩ : ∃ Y, (reconnect_serial st now r).1 = Y := ⟨_, rfl⟩
    rw [hY] at hlast ⊢
    simp [reconnect_serial, hlast, h2]

/-- Witness for C5: an attempt at `t = 10` (last attempt at 0) succeeds and
resets the counter; a second call at `t = 12` is a no-op returning false. -/
theorem C5_reconnect_rate_limit_witness :
    (reconnect_serial ⟨0, false, 7⟩ 10 true).1.serial_error_count = 0 ∧
    (reconnect_serial ⟨0, false, 7⟩ 10 true).2 = true ∧
    reconnect_serial (reconnect_serial ⟨0, false, 7⟩ 10 true).1 12 false =
      ((reconnect_serial ⟨0, false, 7⟩ 10 true).1, false) := by
  refine ⟨((C5_reconnect_rate_limit ⟨0, false, 7⟩ 10 12 true false).2.1
      (by norm_num)).2.2.1 rfl,
    ((C5_reconnect_rate_limit ⟨0, false, 7⟩ 10 12 true false).2.1
      (by norm_num)).2.2.2,
    (C5_reconnect_rate_limit ⟨0, false, 7⟩ 10 12 true false).2.2
      (by norm_num) (by norm_num)⟩

/-- C6: a non-empty line shorter than 5 characters or with none of `:`,
`[`, `{` is rejected with an empty packet and an incremented counter;
reaching 3 triggers the reconnect call; three consecutive rejections from a
zero counter trigger exactly one reconnect call (on the third); and a decode
that passes the heuristic and yields data resets the counter to zero. -/
theorem C6_corruption_counter (st : ConnState) (raw raw2 raw3 : String)
    (j j2 j3 : Option (List (String × SerialValue))) (now now2 now3 : ℚ)
    (r r2 r3 : Bool) :
    (st.serial_conn = true → raw ≠ "" →
      (raw.length < 5 ∨ hasStructuralDelim raw = false) →
      (read_serial_packet st raw j now r).packet = [] ∧
      (st.serial_error_count + 1 < 3 →
        (read_serial_packet st raw j now r).st.serial_error_count
          = st.serial_error_count + 1 ∧
        (read_serial_packet st raw j now r).reconnect_called = false) ∧
      (3 ≤ st.serial_error_count + 1 →
        (read_serial_packet st raw j now r).reconnect_called = true)) ∧
    (st.serial_conn = true → st.serial_error_count = 0 →
      raw ≠ "" → (raw.length < 5 ∨ hasStructuralDelim raw = false) →
      raw2 ≠ "" → (raw2.length < 5 ∨ hasStructuralDelim raw2 = false) →
      raw3 ≠ "" → (raw3.length < 5 ∨ hasStructuralDelim raw3 = false) →
      (read_serial_packet st raw j now r).reconnect_called = false ∧
      (read_serial_packet (read_serial_packet st raw j now r).st
        raw2 j2 now2 r2).reconnect_called = false ∧
      (read_serial_packet (read_serial_packet
        (read_serial_packet st raw j now r).st raw2 j2 now2 r2).st
        raw3 j3 now3 r3).reconnect_called = true) ∧
    (st.serial_conn = true → raw ≠ "" →
      ¬ (raw.length < 5 ∨ hasStructuralDelim raw = false) →
      (∀ d, j = some d →
        (read_serial_packet st raw j now r).st.serial_error_count = 0) ∧
      (j = none → decode_fallback raw ≠ [] →
        (read_serial_packet st raw j now r).st.serial_error_count = 0)) := by
  refine ⟨fun hconn hraw hcorr => ?_, fun hconn hc0 hraw hcorr hraw2 hcorr2 hraw3 hcorr3 => ?_,
    fun hconn hraw hok => ?_⟩
  · refine ⟨?_, fun hlt => ?_, fun hge => ?_⟩
    · by_cases h3 : 3 ≤ st.serial_error_count + 1 <;>
        simp [read_serial_packet, reconnect_serial, hconn, hraw, hcorr, h3]
    · simp [read_serial_packet, hconn, hraw, hcorr, Nat.not_le.mpr hlt]
    · simp [read_serial_packet, hconn, hraw, hcorr, hge]
  · have e1 : read_serial_packet st raw j now r =
        { st := { st with serial_error_count := st.serial_error_count + 1 },
          packet := [], reconnect_called := false } := by
      simp [read_serial_packet, hconn, hraw, hcorr, hc0]
    have e2 : read_serial_packet (read_serial_packet st raw j now r).st
        raw2 j2 now2 r2 =
        { st := { st with serial_error_count := st.serial_error_count + 2 },
          packet := [], reconnect_called := false } := by
      rw [e1]
      simp [read_serial_packet, hconn, hraw2, hcorr2, hc0]
    refine ⟨by rw [e1], by rw [e2], ?_⟩
    rw [e2]
    simp [read_serial_packet, hconn, hraw3, hcorr3, hc0]
  · refine ⟨fun d hd => ?_, fun hj hfb => ?_⟩
    · subst hd
      simp [read_serial_packet, hconn, hraw, hok]
    · subst hj
      simp [read_serial_packet, hconn, hraw, hok, hfb]

/-- Witness for C6: two short lines leave the reconnect untriggered below
the threshold, the third rejection (counter 2 → 3) triggers it, and a valid
`key:value` line resets the counter. -/
theorem C6_corruption_counter_witness :
    (read_serial_packet ⟨0, true, 0⟩ "x" none 100 false).reconnect_called = false ∧
    (read_serial_packet ⟨0, true, 2⟩ "x" none 100 false).reconnect_called = true ∧
    (read_serial_packet ⟨0, true, 2⟩ "light: 1" none 100 false).st.serial_error_count
      = 0 := by
  refine ⟨((C6_corruption_counter ⟨0, true, 0⟩ "x" "x" "x" none none none
      100 100 100 false false false).1 rfl (by decide) (by decide)).2.1
      (by decide) |>.2, ?_, ?_⟩
  · exact ((C6_corruption_counter ⟨0, true, 2⟩ "x" "x" "x" none none none
      100 100 100 false false false).1 rfl (by decide) (by decide)).2.2 (by decide)
  · exact ((C6_corruption_counter ⟨0, true, 2⟩ "light: 1" "x" "x" none none none
      100 100 100 false false false).2.2 rfl (by decide) (by decide)).2 rfl (by decide)

/-- C4 counterexample: a serial-supplied soil value of 500 is stored
unchanged, so the stored soil is not always within `[0, 100]`. -/
theorem C4_soil_counterexample :
    (read_sensors initState
      { packet := [("soil", SerialValue.num 500)], use_mock_hardware := true,
        has_distance_sensor := false, distance_sensor_m := 0, serial_conn := true,
        rand_dist := 50, light_flip := false, soil_change := 0,
        dht_present := false, now := 0, dht_read := none,
        temp_step := 0 }).soil = some 500 ∧
    ¬ ((500 : ℚ) ≤ 100) := by
  exact ⟨rfl, by norm_num⟩

/-- C4 amended: the `[0, 100]` bound holds for every non-serial soil source
(previous value given it was in range, or the clamped mock random walk), and
for serial values in `[0, 1]`; only a serial soil outside `[0, 1]` can
escape the bound. -/
theorem C4_soil_invariant_amended (st : SensorState) (env : TickEnv) :
    (extract_serial_number env.packet soilKeys = none →
      (∀ p, st.soil_val = some p → 0 ≤ p ∧ p ≤ 100) →
      ∀ q, (read_sensors st env).soil = some q → 0 ≤ q ∧ q ≤ 100) ∧
    (∀ s, extract_serial_number env.packet soilKeys = some s →
      0 ≤ s → s ≤ 1 →
      ∀ q, (read_sensors st env).soil = some q → 0 ≤ q ∧ q ≤ 100) := by
  constructor
  · intro hs hprev q hq
    simp only [read_sensors, hs] at hq
    split at hq
    · simp only at hq
      cases hq
      constructor
      · exact le_max_left _ _
      · exact max_le (by norm_num) (min_le_left _ _)
    · simp only at hq
      exact hprev q hq
  · intro s hs h0 h1 q hq
    simp only [read_sensors, hs, h1, if_true] at hq
    split at hq
    · rename_i hcond
      simp at hcond
    · simp only at hq
      cases hq
      constructor
      · positivity
      · nlinarith

/-- Witness for C4 amended: with no serial soil and a live connection the
previous value 50 is kept and lies within the bound. -/
theorem C4_soil_invariant_amended_witness :
    (0 : ℚ) ≤ 50 ∧ (50 : ℚ) ≤ 100 := by
  refine (C4_soil_invariant_amended initState
    { packet := [], use_mock_hardware := true, has_distance_sensor := false,
      distance_sensor_m := 0, serial_conn := true, rand_dist := 50,
      light_flip := false, soil_change := 0, dht_present := false, now := 0,
      dht_read := none, temp_step := 0 }).1 rfl ?_ 50 rfl
  intro p hp
  cases hp
  norm_num

/-- C7: contrary to the throttle comments in src/app.py (lines 115 and 378,
"min 2 sec between reads"), a failed DHT read does not update
`last_dht_read`, so physical read attempts recur on consecutive ticks: here
two physical reads happen 1 second apart. -/
theorem C7_dht_throttle_code_bug :
    (read_sensors initState dhtFailEnvA).dht_physical_read = true ∧
    (read_sensors (loop_tick initState dhtFailEnvA) dhtFailEnvB).dht_physical_read
      = true ∧
    dhtFailEnvB.now - dhtFailEnvA.now < 2 ∧
    (loop_tick initState dhtFailEnvA).last_dht_read = initState.last_dht_read := by
  refine ⟨?_, ?_, ?_, ?_⟩
  · norm_num [read_sensors, dhtFailEnvA, initState]
  · norm_num [read_sensors, loop_tick, dhtFailEnvA, dhtFailEnvB, initState]
  · norm_num [dhtFailEnvA, dhtFailEnvB]
  · norm_num [read_sensors, loop_tick, dhtFailEnvA, initState]

/-- C8 counterexample: at `label = some ""` (non-None but falsy) the code
takes the no-gesture branch, not the claimed gesture-message branch. -/
theorem C8_gesture_counterexample :
    (update_gesture (some "") (some "forward") "12:00:00").message
      = "No gesture detected" ∧
    (update_gesture (some "") (some "forward") "12:00:00").detected_at = none ∧
    (update_gesture (some "") (some "forward") "12:00:00").message ≠
      "Gesture  detected → engaging forward" := by
  exact ⟨rfl, rfl, by decide⟩

/-- C8 amended: a non-empty label stores
`"Gesture <label> detected → engaging <mode>"` with `standby` substituted
when the mode is absent or empty, and a current time-of-day; a `None` or
empty label stores `"No gesture detected"` with no timestamp. -/
theorem C8_gesture_amended (label mode : Option String) (now : String) :
    (∀ l, label = some l → l ≠ "" →
      update_gesture label mode now =
        { label := label, mode := mode,
          message := "Gesture " ++ l ++ " detected → engaging " ++
            (match mode with
             | some m => if m = "" then "standby" else m
             | none => "standby"),
          detected_at := some now }) ∧
    ((label = none ∨ label = some "") →
      update_gesture label mode now =
        { label := label, mode := mode, message := "No gesture detected",
          detected_at := none }) := by
  constructor
  · rintro l rfl hl
    cases mode <;> simp [update_gesture, pyOrStr, hl]
  · rintro (rfl | rfl) <;> rfl

/-- Witness for C8 amended, matching the spec's example scenario. -/
theorem C8_gesture_amended_witness :
    update_gesture (some "fist") (some "forward") "10:00:00" =
      { label := some "fist", mode := some "forward",
        message := "Gesture fist detected → engaging forward",
        detected_at := some "10:00:00" } ∧
    update_gesture none (some "forward") "10:00:00" =
      { label := none, mode := some "forward",
        message := "No gesture detected", detected_at := none } := by
  constructor
  · exact ((C8_gesture_amended (some "fist") (some "forward") "10:00:00").1
      "fist" rfl (by decide)).trans (by decide)
  · exact (C8_gesture_amended none (some "forward") "10:00:00").2 (Or.inl rfl)

/-- C9 counterexample: the source also removes interior spaces from the
fallback key, so on `"[my key: 5]"` it produces key `"mykey"` where the
claim's trimmed-and-lowercased key would be `"my key"`. -/
theorem C9_fallback_key_counterexample :
    decode_fallback "[my key: 5]" = [("mykey", "5")] ∧
    decode_fallback_claim "[my key: 5]" = [("my key", "5")] ∧
    decode_fallback "[my key: 5]" ≠ decode_fallback_claim "[my key: 5]" := by
  exact ⟨by decide, by decide, by decide⟩

/-- Folding entry insertion while skipping `none` segments is the same as
inserting the `filterMap` of the segments. -/
theorem foldl_insert_filterMap (f : List Char → Option (String × String)) :
    ∀ (parts : List (List Char)) (init : List (String × String)),
      parts.foldl (fun packet part =>
        match f part with
        | none => packet
        | some kv => dictInsert packet kv.1 kv.2) init
      = (parts.filterMap f).foldl
          (fun packet kv => dictInsert packet kv.1 kv.2) init := by
  intro parts
  induction parts with
  | nil => intro init; rfl
  | cons p ps ih =>
    intro init
    cases hf : f p <;> simp [List.filterMap_cons, hf, ih]

/-- C9 amended: the fallback decoder maps every colon-bearing segment of the
bracket-stripped, comma-split line to an entry whose key is trimmed,
lowercased and stripped of all spaces and whose value is trimmed, skipping
every colon-free segment. -/
theorem C9_fallback_decoder (raw : String) :
    decode_fallback raw = decode_fallback_amended raw := by
  have hfun : (fun (packet : List (String × String)) (part : List Char) =>
      match splitFirstColon part with
      | none => packet
      | some kv => dictInsert packet (normalizeKeyFallback kv.1) (pyStrip ⟨kv.2⟩))
      = (fun (packet : List (String × String)) (part : List Char) =>
      match (splitFirstColon part).map
          (fun kv => (normalizeKeyFallback kv.1, pyStrip ⟨kv.2⟩)) with
      | none => packet
      | some kv => dictInsert packet kv.1 kv.2) := by
    funext packet part
    cases splitFirstColon part <;> rfl
  simp only [decode_fallback, decode_fallback_amended, hfun,
    foldl_insert_filterMap]

/-- Light and soil stay `some` across a fusion tick. -/
theorem loop_tick_light_soil (st : SensorState) (env : TickEnv)
    (hl : st.light_val ≠ none) (hs : st.soil_val ≠ none) :
    (loop_tick st env).light_val ≠ none ∧ (loop_tick st env).soil_val ≠ none := by
  constructor
  · cases hl0 : extract_serial_number_int env.packet lightKeys with
    | some z => simp [loop_tick, read_sensors, hl0]
    | none =>
      cases hs0 : extract_serial_number env.packet soilKeys with
      | some s => simpa [loop_tick, read_sensors, hl0, hs0] using hl
      | none =>
        by_cases hp : env.packet = []
        · rw [hp] at hl0 hs0
          by_cases hsc : env.serial_conn = false
          · cases hf : env.light_flip with
            | false => simpa [loop_tick, read_sensors, hl0, hs0, hp, hsc, hf] using hl
            | true => simp [loop_tick, read_sensors, hl0, hs0, hp, hsc, hf]
          · simpa [loop_tick, read_sensors, hl0, hs0, hp, hsc] using hl
        · simpa [loop_tick, read_sensors, hl0, hs0, hp] using hl
  · cases hs0 : extract_serial_number env.packet soilKeys with
    | some s => simp [loop_tick, read_sensors, hs0]
    | none =>
      cases hl0 : extract_serial_number_int env.packet lightKeys with
      | some z => simpa [loop_tick, read_sensors, hl0, hs0] using hs
      | none =>
        by_cases hp : env.packet = []
        · rw [hp] at hl0 hs0
          by_cases hsc : env.serial_conn = false
          · simp [loop_tick, read_sensors, hl0, hs0, hp, hsc]
          · simpa [loop_tick, read_sensors, hl0, hs0, hp, hsc] using hs
        · simpa [loop_tick, read_sensors, hl0, hs0, hp] using hs

/-- C10: starting from the initial state (`light_val = 1`,
`soil_val = 50.0`), every sequence of fusion ticks leaves light and soil
non-`None`, and the control state machine never yields the SAD face on
non-`None` inputs. -/
theorem C10_sad_unreachable (envs : List TickEnv) :
    (envs.foldl loop_tick initState).light_val ≠ none ∧
    (envs.foldl loop_tick initState).soil_val ≠ none ∧
    ∀ (d : ℚ) (l : ℤ) (s : ℚ), (apply_logic d (some l) (some s)).1 ≠ FACES_sad := by
  have main : ∀ (es : List TickEnv) (st : SensorState),
      st.light_val ≠ none → st.soil_val ≠ none →
      (es.foldl loop_tick st).light_val ≠ none ∧
      (es.foldl loop_tick st).soil_val ≠ none := by
    intro es
    induction es with
    | nil => exact fun st hl hs => ⟨hl, hs⟩
    | cons e es ih =>
      intro st hl hs
      have h := loop_tick_light_soil st e hl hs
      exact ih _ h.1 h.2
  have hinit := main envs initState (by simp [initState]) (by simp [initState])
  refine ⟨hinit.1, hinit.2, fun d l s => ?_⟩
  simp only [apply_logic]
  split_ifs <;> decide

/-- Witness for C10 after one mock tick and at a concrete control input. -/
theorem C10_sad_unreachable_witness :
    ([dhtFailEnvA].foldl loop_tick initState).light_val ≠ none ∧
    ([dhtFailEnvA].foldl loop_tick initState).soil_val ≠ none ∧
    (apply_logic 50 (some 1) (some 80)).1 ≠ FACES_sad :=
  ⟨(C10_sad_unreachable [dhtFailEnvA]).1, (C10_sad_unreachable [dhtFailEnvA]).2.1,
   (C10_sad_unreachable [dhtFailEnvA]).2.2 50 1 80⟩

end IotProject
